import Mathlib

/-!
Shallow embedding of the payment request handler of the bridge server
(`handlers/request_handler_payment.go`).  External collaborators (keypair
parsing, federation address resolution, the horizon ledger client, the
transaction-build library and the submitter) are modelled as oracle fields
of an `Env` record; the handler's own control flow, field validation, memo
reconciliation, operation composition and error classification are
translated statement by statement from the Go source.
-/

namespace Gateway

/-- A submitted POST form: an association list of field names to values.
`PostFormValue` returns the first value for a key, or the empty string. -/
abbrev Req := List (String × String)

/-- Membership lookup in the form (`r.PostForm[key]`): first value if present. -/
def formGet (r : Req) (k : String) : Option String :=
  (r.find? (fun p => p.1 == k)).map (fun p => p.2)

/-- `r.PostFormValue(key)`: the first value for the key, or `""` when absent. -/
def fv (r : Req) (k : String) : String := (formGet r k).getD ""

/-- `StellarDestination` as returned by `AddressResolver.Resolve`:
account id plus optional memo type and memo value (Go pointer fields). -/
structure StellarDestination where
  accountId : String
  memoType : Option String
  memo : Option String
  deriving DecidableEq

/-- `b.Asset` of the build library: native, or issued with raw code/issuer
strings (path payment assets are not keypair-validated by the handler). -/
inductive BAsset where
  | native
  | issued (code issuer : String)
  deriving DecidableEq

/-- Typed memo mutator corresponding to `b.MemoID` / `b.MemoText` / `b.MemoHash`. -/
inductive Memo where
  | id (value : Nat)
  | text (s : String)
  | hash (bytes : List Nat)
  deriving DecidableEq

/-- The operation builder the composer hands to transaction assembly:
`b.CreateAccount`, `b.Payment` (native or credit amount) or `b.PathPayment`,
recorded with the exact mutator arguments the Go code passes. -/
inductive Op where
  | createAccount (destination amount : String)
  | paymentNative (destination amount : String)
  | paymentCredit (destination code issuerAddress amount : String)
  | pathPayment (destination : String) (sendAsset : BAsset) (sendMax : String)
      (destAsset : BAsset) (destAmount : String) (path : List BAsset)
  deriving DecidableEq

/-- The user-facing error codes written by `writeError`. -/
inductive PaymentError where
  | invalidSource
  | cannotResolveDestination
  | invalidDestination
  | invalidType
  | missingParamMemo
  | cannotUseMemo
  | invalidMemo
  | missingParamAsset
  | invalidIssuer
  | malformedAssetCode
  | invalidAmount
  | sourceNotExist
  | serverError
  deriving DecidableEq

/-- Terminal fault of a handler run: a written error code, or a Go runtime
panic (nil-pointer dereference / failed type assertion on a nil interface). -/
inductive Fault where
  | err (e : PaymentError)
  | crash
  deriving DecidableEq

/-- The transaction mutator list assembled at the end of `Payment`:
source account, `b.Sequence` value, network passphrase, the operation,
and the optional memo mutator. -/
structure TxSpec where
  source : String
  sequence : Nat
  network : String
  operation : Op
  memo : Option Memo
  deriving DecidableEq

/-- Oracles for the external collaborators of the handler, plus the
configured network passphrase.  `parseKeypair` returns the parsed key's
address on success; `loadAccount` returns the account's sequence-number
string on success and `none` on any lookup error; `opErr` is the `Err`
field of a built operation builder; `txErr` the `Err` of `b.Transaction`;
`signEncode` models `tx.Sign(source)` followed by `txe.Base64()`;
`submit` models `Horizon.SubmitTransaction`. -/
structure Env where
  parseKeypair : String → Option String
  resolve : String → Option StellarDestination
  loadAccount : String → Option String
  opErr : Op → Option String
  network : String
  txErr : TxSpec → Option String
  signEncode : TxSpec → String → Option String
  submit : String → Option String

/-- `strconv.ParseUint(s, 10, 64)` digit accumulator. -/
def parseDecDigits : List Char → Nat → Option Nat
  | [], acc => some acc
  | c :: cs, acc =>
    if c.isDigit then parseDecDigits cs (acc * 10 + (c.toNat - 48)) else none

/-- `strconv.ParseUint(s, 10, 64)`: decimal digits only, non-empty,
value below `2^64`; `none` on any failure. -/
def parseUint64 (s : String) : Option Nat :=
  match s.data with
  | [] => none
  | cs =>
    match parseDecDigits cs 0 with
    | none => none
    | some n => if n < 18446744073709551616 then some n else none

/-- Value of a single hexadecimal digit, as accepted by `hex.DecodeString`. -/
def hexDigitVal (c : Char) : Option Nat :=
  if 48 ≤ c.toNat ∧ c.toNat ≤ 57 then some (c.toNat - 48)
  else if 97 ≤ c.toNat ∧ c.toNat ≤ 102 then some (c.toNat - 87)
  else if 65 ≤ c.toNat ∧ c.toNat ≤ 70 then some (c.toNat - 55)
  else none

/-- `hex.DecodeString` on a character list: bytes from pairs of hex digits;
fails on an odd-length input or any non-hex character. -/
def hexDecodeList : List Char → Option (List Nat)
  | [] => some []
  | [_] => none
  | c1 :: c2 :: rest =>
    match hexDigitVal c1, hexDigitVal c2 with
    | some hi, some lo =>
      match hexDecodeList rest with
      | some bs => some ((16 * hi + lo) :: bs)
      | none => none
    | _, _ => none

/-- `hex.DecodeString(s)`. -/
def hexDecode (s : String) : Option (List Nat) := hexDecodeList s.data

/-- `strings.Contains` helper on character lists. -/
def isPre : List Char → List Char → Bool
  | [], _ => true
  | _ :: _, [] => false
  | x :: xs, y :: ys => x == y && isPre xs ys

/-- `strings.Contains` search over every suffix. -/
def listContainsSub : List Char → List Char → Bool
  | pat, [] => isPre pat []
  | pat, c :: cs => isPre pat (c :: cs) || listContainsSub pat cs

/-- `strings.Contains(s, pat)`. -/
def strContains (s pat : String) : Bool := listContainsSub pat.data s.data

/-- `createPaymentOperation` (lines 176-229): simple payment composition.
Returns the Go function's named results `(operationBuilder, errorResponse)`. -/
def createPaymentOperation (env : Env) (r : Req) (destinationObject : StellarDestination) :
    Option Op × Option PaymentError :=
  let amount := fv r "amount"
  let assetCode := fv r "asset_code"
  let assetIssuer := fv r "asset_issuer"
  if assetCode ≠ "" ∧ assetIssuer ≠ "" then
    match env.parseKeypair assetIssuer with
    | none => (none, some .invalidIssuer)
    | some issuerAddress =>
      let op := Op.paymentCredit destinationObject.accountId assetCode issuerAddress amount
      match env.opErr op with
      | some _ => (some op, some .serverError)
      | none => (some op, none)
  else if assetCode = "" ∧ assetIssuer = "" then
    match env.loadAccount destinationObject.accountId with
    | none =>
      let op := Op.createAccount destinationObject.accountId amount
      match env.opErr op with
      | some _ => (some op, some .serverError)
      | none => (some op, none)
    | some _ =>
      let op := Op.paymentNative destinationObject.accountId amount
      match env.opErr op with
      | some _ => (some op, some .serverError)
      | none => (some op, none)
  else (none, some .missingParamAsset)

/-- The form field name `fmt.Sprintf("path[%d][asset_code]", i)`. -/
def pathCodeField (i : Nat) : String := "path[" ++ Nat.repr i ++ "][asset_code]"

/-- The form field name `fmt.Sprintf("path[%d][asset_issuer]", i)`. -/
def pathIssuerField (i : Nat) : String := "path[" ++ Nat.repr i ++ "][asset_issuer]"

/-- One discovered path leg: native when both fields are empty, otherwise
an issued asset built from the raw field values (no validation). -/
def pathLeg (r : Req) (i : Nat) : BAsset :=
  let code := fv r (pathCodeField i)
  let issuer := fv r (pathIssuerField i)
  if code = "" ∧ issuer = "" then .native else .issued code issuer

/-- The path-discovery loop (lines 266-283), fuelled: starting at index `i`,
collect a leg per present `path[i][asset_code]` key and stop at the first
absent index.  On a finite form the loop always breaks, so any fuel larger
than the first absent index gives the loop's exact result. -/
def discoverPathAux (r : Req) : Nat → Nat → List BAsset
  | _, 0 => []
  | i, fuel + 1 =>
    match formGet r (pathCodeField i) with
    | none => []
    | some _ => pathLeg r i :: discoverPathAux r (i + 1) fuel

/-- The discovered path: fuel `r.length + 1` exceeds the first absent index
because a form with `n` entries cannot contain `n + 1` distinct keys. -/
def discoverPath (r : Req) : List BAsset := discoverPathAux r 0 (r.length + 1)

/-- The shared jointly-empty / jointly-non-empty asset-pair rule of
`createPathPaymentOperation` (applied to the send and destination pairs). -/
def assetFromParams (code issuer : String) : Except PaymentError BAsset :=
  if code ≠ "" ∧ issuer ≠ "" then .ok (.issued code issuer)
  else if code = "" ∧ issuer = "" then .ok .native
  else .error .missingParamAsset

/-- `createPathPaymentOperation` (lines 231-305): path payment composition. -/
def createPathPaymentOperation (env : Env) (r : Req) (destinationObject : StellarDestination) :
    Option Op × Option PaymentError :=
  match assetFromParams (fv r "send_asset_code") (fv r "send_asset_issuer") with
  | .error e => (none, some e)
  | .ok sendAsset =>
    match assetFromParams (fv r "destination_asset_code") (fv r "destination_asset_issuer") with
    | .error e => (none, some e)
    | .ok destinationAsset =>
      let op := Op.pathPayment destinationObject.accountId sendAsset (fv r "send_max")
        destinationAsset (fv r "destination_amount") (discoverPath r)
      match env.opErr op with
      | some _ => (some op, some .serverError)
      | none => (some op, none)

/-- Memo parameter reconciliation (lines 63-81): the joint-presence check on
the user's `memo_type`/`memo` fields, then the federation override.  When the
resolved destination carries a memo type, a non-empty user `memo_type` is
rejected with `CannotUseMemo`; otherwise the handler dereferences
`destinationObject.Memo` unguarded — absent value means a nil-pointer crash.
Returns the effective `(memoType, memo)` pair. -/
def effectiveMemo (r : Req) (destinationObject : StellarDestination) :
    Except Fault (String × String) :=
  let memoType := fv r "memo_type"
  let memo := fv r "memo"
  if ¬ ((memoType = "" ∧ memo = "") ∨ (memoType ≠ "" ∧ memo ≠ "")) then
    .error (.err .missingParamMemo)
  else
    match destinationObject.memoType with
    | none => .ok (memoType, memo)
    | some mt =>
      if memoType ≠ "" then .error (.err .cannotUseMemo)
      else
        match destinationObject.memo with
        | some m => .ok (mt, m)
        | none => .error .crash

/-- Memo kind dispatch (lines 83-112): builds the memo mutator from the
effective memo type and value. -/
def memoMutatorOf (memoType memo : String) : Except PaymentError (Option Memo) :=
  if memoType = "" then .ok none
  else if memoType = "id" then
    match parseUint64 memo with
    | none => .error .invalidMemo
    | some v => .ok (some (.id v))
  else if memoType = "text" then .ok (some (.text memo))
  else if memoType = "hash" then
    match hexDecode memo with
    | none => .error .invalidMemo
    | some bs => if bs.length = 32 then .ok (some (.hash bs)) else .error .invalidMemo
  else .error .invalidMemo

/-- Transaction-builder error classification (lines 141-155): exact match on
the asset-code message, substring match on the amount message, `ServerError`
otherwise. -/
def classifyTxError (msg : String) : PaymentError :=
  if msg = "Asset code length is invalid" then .malformedAssetCode
  else if strContains msg "cannot parse amount" then .invalidAmount
  else .serverError

/-- The `switch paymentType` of `Payment` (lines 44-61): the empty type leaves
the operation builder nil; `payment` / `path_payment` delegate to the
composers; anything else is `InvalidType`.  A non-nil `errorResponse` from a
composer terminates the handler. -/
def opSwitch (env : Env) (r : Req) (destinationObject : StellarDestination) :
    Except Fault (Option Op) :=
  match fv r "type" with
  | "" => .ok none
  | "payment" =>
    match createPaymentOperation env r destinationObject with
    | (_, some e) => .error (.err e)
    | (op, none) => .ok op
  | "path_payment" =>
    match createPathPaymentOperation env r destinationObject with
    | (_, some e) => .error (.err e)
    | (op, none) => .ok op
  | _ => .error (.err .invalidType)

/-- `Payment` up to line 139: validation, resolution, operation composition,
memo reconciliation, source-account load, sequence parsing, and the mutator
list assembly.  The `b.Sequence` value is the uint64 sum
`(sequenceNumber + 1) mod 2^64`.  A nil operation builder crashes at the
`operationBuilder.(b.TransactionMutator)` type assertion. -/
def buildTx (env : Env) (r : Req) : Except Fault TxSpec :=
  match env.parseKeypair (fv r "source") with
  | none => .error (.err .invalidSource)
  | some sourceAddress =>
    match env.resolve (fv r "destination") with
    | none => .error (.err .cannotResolveDestination)
    | some destinationObject =>
      match env.parseKeypair destinationObject.accountId with
      | none => .error (.err .invalidDestination)
      | some _ =>
        match opSwitch env r destinationObject with
        | .error f => .error f
        | .ok operationBuilder =>
          match effectiveMemo r destinationObject with
          | .error f => .error f
          | .ok (memoType, memo) =>
            match memoMutatorOf memoType memo with
            | .error e => .error (.err e)
            | .ok memoMutator =>
              match env.loadAccount sourceAddress with
              | none => .error (.err .sourceNotExist)
              | some seqString =>
                match parseUint64 seqString with
                | none => .error (.err .serverError)
                | some sequenceNumber =>
                  match operationBuilder with
                  | none => .error .crash
                  | some op =>
                    .ok { source := fv r "source"
                          sequence := (sequenceNumber + 1) % 18446744073709551616
                          network := env.network
                          operation := op
                          memo := memoMutator }

/-- The full `Payment` handler: builds the transaction, classifies builder
errors, signs and encodes, submits, and returns the submit response. -/
def Payment (env : Env) (r : Req) : Except Fault String :=
  match buildTx env r with
  | .error f => .error f
  | .ok tx =>
    match env.txErr tx with
    | some msg => .error (.err (classifyTxError msg))
    | none =>
      match env.signEncode tx (fv r "source") with
      | none => .error (.err .serverError)
      | some txeB64 =>
        match env.submit txeB64 with
        | none => .error (.err .serverError)
        | some submitResponse => .ok submitResponse

/-- A benign collaborator environment: every key parses to itself, every
destination resolves to a memo-less account, the source account exists with
sequence number `5`, and building, signing and submission all succeed. -/
def baseEnv : Env where
  parseKeypair := fun s => some s
  resolve := fun s => some ⟨s, none, none⟩
  loadAccount := fun _ => some "5"
  opErr := fun _ => none
  network := "net"
  txErr := fun _ => none
  signEncode := fun _ _ => some "B64"
  submit := fun _ => some "OK"

/-- An asset `(code, issuer)` pair with exactly one field set. -/
def partialPair (code issuer : String) : Prop :=
  (code = "" ∧ issuer ≠ "") ∨ (code ≠ "" ∧ issuer = "")

/-- C1 witness input: native-asset simple payment form fields. -/
def r1 : Req := [("amount", "10")]

/-- C1 witness destination. -/
def dest1 : StellarDestination := ⟨"D", none, none⟩

/-- C1 witness environment: the destination-account lookup fails. -/
def env1 : Env := { baseEnv with loadAccount := fun _ => none }

/-- C2 failing input: a request with no `type` field. -/
def r2 : Req := [("source", "S"), ("destination", "D")]

/-- C3 environment (benign collaborators). -/
def env3 : Env := baseEnv

/-- C3 counterexample form: one path leg with `asset_code` set and no
`asset_issuer`. -/
def r3 : Req := [("path[0][asset_code]", "USD")]

/-- C3 witness form: a simple-payment asset pair with only `asset_code`. -/
def r3w : Req := [("asset_code", "USD")]

/-- C3 destination. -/
def dest3 : StellarDestination := ⟨"D", none, none⟩

/-- C4 environment: the transaction builder reports an error whose text
strictly contains the recognized asset-code message. -/
def env4 : Env := { baseEnv with txErr := fun _ => some "XX Asset code length is invalid" }

/-- C4 counterexample request: a valid issued-asset payment. -/
def r4 : Req :=
  [("source", "S"), ("destination", "D"), ("type", "payment"),
   ("asset_code", "USD"), ("asset_issuer", "GI"), ("amount", "10")]

/-- C5 environment: the resolver returns a destination carrying a memo. -/
def env5 : Env := { baseEnv with resolve := fun _ => some ⟨"D", some "text", some "hello"⟩ }

/-- C5 counterexample request: user `memo_type` set, user `memo` absent. -/
def r5 : Req :=
  [("source", "S"), ("destination", "D"), ("type", "payment"),
   ("asset_code", "USD"), ("asset_issuer", "GI"), ("memo_type", "id")]

/-- C5 assembled-transaction request: no user memo at all. -/
def r5b : Req :=
  [("source", "S"), ("destination", "D"), ("type", "payment"),
   ("asset_code", "USD"), ("asset_issuer", "GI"), ("amount", "10")]

/-- C6 form: path legs 0 and 1 present, leg 2 absent, leg 3 present. -/
def r6 : Req :=
  [("type", "path_payment"),
   ("path[0][asset_code]", "USD"), ("path[0][asset_issuer]", "I0"),
   ("path[1][asset_code]", "EUR"), ("path[1][asset_issuer]", "I1"),
   ("path[3][asset_code]", "GBP"), ("path[3][asset_issuer]", "I3")]

/-- C6 form with no `path[0]` leg (only a stray `path[1]` leg). -/
def r6empty : Req := [("path[1][asset_code]", "EUR")]

/-- C6 destination. -/
def dest6 : StellarDestination := ⟨"D", none, none⟩

/-- C8 environment: the source account's sequence number is the maximal
unsigned 64-bit value. -/
def env8 : Env := { baseEnv with loadAccount := fun _ => some "18446744073709551615" }

/-- C8 request: a valid issued-asset payment (no destination lookup). -/
def r8 : Req :=
  [("source", "S"), ("destination", "D"), ("type", "payment"),
   ("asset_code", "USD"), ("asset_issuer", "GI"), ("amount", "10")]

/-- C1: for a valid native-asset simple-payment request (both asset fields
empty), the composer dispatches on the destination-account lookup: any lookup
error yields `CreateAccount(destination, amount)` and never a native
`Payment`; a successful lookup yields `Payment(destination, native, amount)`. -/
theorem c1_native_payment_existence_dispatch (env : Env) (r : Req)
    (d : StellarDestination)
    (hc : fv r "asset_code" = "") (hi : fv r "asset_issuer" = "") :
    (env.loadAccount d.accountId = none →
      (createPaymentOperation env r d).1 =
        some (.createAccount d.accountId (fv r "amount")) ∧
      ∀ a b, (createPaymentOperation env r d).1 ≠ some (.paymentNative a b)) ∧
    (∀ s, env.loadAccount d.accountId = some s →
      (createPaymentOperation env r d).1 =
        some (.paymentNative d.accountId (fv r "amount"))) := by
  have hbranch : createPaymentOperation env r d =
      match env.loadAccount d.accountId with
      | none =>
        match env.opErr (Op.createAccount d.accountId (fv r "amount")) with
        | some _ => (some (Op.createAccount d.accountId (fv r "amount")), some .serverError)
        | none => (some (Op.createAccount d.accountId (fv r "amount")), none)
      | some _ =>
        match env.opErr (Op.paymentNative d.accountId (fv r "amount")) with
        | some _ => (some (Op.paymentNative d.accountId (fv r "amount")), some .serverError)
        | none => (some (Op.paymentNative d.accountId (fv r "amount")), none) := by
    unfold createPaymentOperation
    rw [hc, hi]
    simp
  constructor
  · intro hla
    rw [hbranch, hla]
    cases env.opErr (Op.createAccount d.accountId (fv r "amount")) <;> simp
  · intro s hla
    rw [hbranch, hla]
    cases env.opErr (Op.paymentNative d.accountId (fv r "amount")) <;> simp

/-- C1 witness: with a failing destination lookup, the composer emits
`CreateAccount("D", "10")` on the concrete native-asset request. -/
theorem c1_native_payment_existence_dispatch_witness :
    (createPaymentOperation env1 r1 dest1).1 = some (.createAccount "D" "10") :=
  ((c1_native_payment_existence_dispatch env1 r1 dest1 rfl rfl).1 rfl).1

/-- C2: a request with an empty `type` field that passes every earlier check
reaches the mutator-list assembly with a nil operation builder, and the
`operationBuilder.(b.TransactionMutator)` type assertion on the nil interface
makes the handler panic instead of returning `ServerError`. -/
theorem c2_empty_type_crash :
    fv r2 "type" = "" ∧
    Payment baseEnv r2 = .error .crash ∧
    Fault.crash ≠ .err .serverError :=
  ⟨rfl, rfl, by decide⟩

/-- C3 counterexample: a discovered path leg with `asset_code` set and
`asset_issuer` absent does not yield `MissingParamAsset`; the partial leg is
passed through as an issued asset with an empty issuer. -/
theorem c3_counterexample :
    fv r3 (pathCodeField 0) = "USD" ∧
    fv r3 (pathIssuerField 0) = "" ∧
    createPathPaymentOperation env3 r3 dest3 =
      (some (.pathPayment "D" .native "" .native "" [.issued "USD" ""]), none) ∧
    (none : Option PaymentError) ≠ some .missingParamAsset :=
  ⟨rfl, rfl, rfl, by decide⟩

/-- A partially specified pair fails the shared send/destination asset rule. -/
theorem assetFromParams_missing {c i : String} (h : partialPair c i) :
    assetFromParams c i = .error .missingParamAsset := by
  unfold assetFromParams
  rcases h with ⟨h1, h2⟩ | ⟨h1, h2⟩
  · rw [if_neg (by simp [h1]), if_neg (by simp [h2])]
  · rw [if_neg (by simp [h2]), if_neg (by simp [h1])]

/-- C3 (amended): partial asset pairs yield `MissingParamAsset` for the
simple-payment pair and for the path payment's send and destination pairs,
but a partially specified path leg is not rejected: it is collected as an
issued asset carrying the raw (possibly empty) field values. -/
theorem c3_partial_pair_missing_param :
    (∀ (env : Env) (r : Req) (d : StellarDestination),
      partialPair (fv r "asset_code") (fv r "asset_issuer") →
      createPaymentOperation env r d = (none, some .missingParamAsset)) ∧
    (∀ (env : Env) (r : Req) (d : StellarDestination),
      partialPair (fv r "send_asset_code") (fv r "send_asset_issuer") →
      createPathPaymentOperation env r d = (none, some .missingParamAsset)) ∧
    (∀ (env : Env) (r : Req) (d : StellarDestination),
      partialPair (fv r "destination_asset_code") (fv r "destination_asset_issuer") →
      ¬ partialPair (fv r "send_asset_code") (fv r "send_asset_issuer") →
      createPathPaymentOperation env r d = (none, some .missingParamAsset)) ∧
    (∀ (r : Req) (i : Nat),
      ¬ (fv r (pathCodeField i) = "" ∧ fv r (pathIssuerField i) = "") →
      pathLeg r i = .issued (fv r (pathCodeField i)) (fv r (pathIssuerField i))) := by
  refine ⟨?_, ?_, ?_, ?_⟩
  · intro env r d h
    unfold createPaymentOperation
    rcases h with ⟨h1, h2⟩ | ⟨h1, h2⟩
    · rw [if_neg (by simp [h1]), if_neg (by simp [h2])]
    · rw [if_neg (by simp [h2]), if_neg (by simp [h1])]
  · intro env r d h
    unfold createPathPaymentOperation
    rw [assetFromParams_missing h]
  · intro env r d h hsend
    unfold createPathPaymentOperation
    rcases hok : assetFromParams (fv r "send_asset_code") (fv r "send_asset_issuer") with e | a
    · exfalso
      unfold assetFromParams at hok
      by_cases hc : fv r "send_asset_code" = "" <;>
        by_cases hi : fv r "send_asset_issuer" = "" <;>
          simp [hc, hi, partialPair] at hok hsend
    · rw [assetFromParams_missing h]
  · intro r i h
    unfold pathLeg
    rw [if_neg h]

/-- C3 witness: a simple-payment request with only `asset_code` set is
rejected with `MissingParamAsset`. -/
theorem c3_partial_pair_missing_param_witness :
    createPaymentOperation env3 r3w dest3 = (none, some .missingParamAsset) :=
  c3_partial_pair_missing_param.1 env3 r3w dest3 (Or.inr ⟨by decide, rfl⟩)

/-- C4 counterexample: a builder error whose text strictly contains the
recognized asset-code message is classified as `ServerError`, not
`MalformedAssetCode` — the handler matches that message by exact equality. -/
theorem c4_counterexample :
    Payment env4 r4 = .error (.err .serverError) ∧
    strContains "XX Asset code length is invalid" "Asset code length is invalid" = true ∧
    PaymentError.serverError ≠ PaymentError.malformedAssetCode :=
  ⟨rfl, rfl, by decide⟩

/-- C4 (amended): builder construction failures are classified from the
error text: `MalformedAssetCode` on exact equality with the asset-code
message, `InvalidAmount` on a substring match of the amount message,
`ServerError` otherwise; and the handler reports exactly this classification
whenever the builder fails. -/
theorem c4_builder_error_classification :
    (∀ msg : String, msg = "Asset code length is invalid" →
      classifyTxError msg = .malformedAssetCode) ∧
    (∀ msg : String, msg ≠ "Asset code length is invalid" →
      strContains msg "cannot parse amount" = true →
      classifyTxError msg = .invalidAmount) ∧
    (∀ msg : String, msg ≠ "Asset code length is invalid" →
      strContains msg "cannot parse amount" = false →
      classifyTxError msg = .serverError) ∧
    (∀ (env : Env) (r : Req) (tx : TxSpec) (msg : String),
      buildTx env r = .ok tx → env.txErr tx = some msg →
      Payment env r = .error (.err (classifyTxError msg))) := by
  refine ⟨?_, ?_, ?_, ?_⟩
  · intro msg h
    unfold classifyTxError
    rw [if_pos h]
  · intro msg h1 h2
    unfold classifyTxError
    rw [if_neg h1, if_pos h2]
  · intro msg h1 h2
    unfold classifyTxError
    rw [if_neg h1]
    rw [h2]
    simp
  · intro env r tx msg hb ht
    unfold Payment
    rw [hb]
    simp [ht]

/-- C4 witness: the exact asset-code message is classified as
`MalformedAssetCode`. -/
theorem c4_builder_error_classification_witness :
    classifyTxError "Asset code length is invalid" = .malformedAssetCode :=
  c4_builder_error_classification.1 "Asset code length is invalid" rfl

/-- C5 counterexample: with a resolver-supplied memo and a user `memo_type`
without a `memo` value, the handler reports `MissingParamMemo`, not
`CannotUseMemo`. -/
theorem c5_counterexample :
    Payment env5 r5 = .error (.err .missingParamMemo) ∧
    fv r5 "memo_type" = "id" ∧
    PaymentError.missingParamMemo ≠ PaymentError.cannotUseMemo :=
  ⟨rfl, rfl, by decide⟩

/-- C5 (amended): for requests passing the memo joint-presence check, a
resolver-supplied memo together with a user memo (both fields non-empty)
yields `CannotUseMemo`; with no user memo the resolver's memo type and value
become the effective pair, and whenever the reconciliation succeeds under a
resolver memo the user supplied none and the resolver's type wins — so at
most one of the two memos populates the assembled transaction, as the
concrete assembled transaction shows. -/
theorem c5_memo_exclusivity :
    (∀ (r : Req) (d : StellarDestination) (mt : String),
      d.memoType = some mt → fv r "memo_type" ≠ "" → fv r "memo" ≠ "" →
      effectiveMemo r d = .error (.err .cannotUseMemo)) ∧
    (∀ (r : Req) (d : StellarDestination) (mt m : String),
      d.memoType = some mt → d.memo = some m →
      fv r "memo_type" = "" → fv r "memo" = "" →
      effectiveMemo r d = .ok (mt, m)) ∧
    (∀ (r : Req) (d : StellarDestination) (mt : String) (p : String × String),
      d.memoType = some mt → effectiveMemo r d = .ok p →
      fv r "memo_type" = "" ∧ p.1 = mt) ∧
    buildTx env5 r5b = .ok ⟨"S", 6, "net", .paymentCredit "D" "USD" "GI" "10",
      some (.text "hello")⟩ := by
  refine ⟨?_, ?_, ?_, rfl⟩
  · intro r d mt hmt h1 h2
    simp [effectiveMemo, hmt, h1, h2]
  · intro r d mt m hmt hm h1 h2
    simp [effectiveMemo, hmt, hm, h1, h2]
  · intro r d mt p hmt hp
    unfold effectiveMemo at hp
    rw [hmt] at hp
    by_cases h : fv r "memo_type" = ""
    · by_cases hmm : fv r "memo" = ""
      · refine ⟨h, ?_⟩
        rw [if_neg (by simp [h, hmm])] at hp
        simp only [] at hp
        rw [if_neg (by simp [h])] at hp
        cases hm : d.memo with
        | none => rw [hm] at hp; cases hp
        | some m => rw [hm] at hp; cases hp; rfl
      · exfalso
        rw [if_pos (by simp [h, hmm])] at hp
        cases hp
    · exfalso
      by_cases hmm : fv r "memo" = ""
      · rw [if_pos (by simp [h, hmm])] at hp
        cases hp
      · rw [if_neg (by simp [h, hmm])] at hp
        simp only [] at hp
        rw [if_pos h] at hp
        cases hp

/-- C5 witness: a user memo alongside a resolver memo is rejected with
`CannotUseMemo`. -/
theorem c5_memo_exclusivity_witness :
    effectiveMemo [("memo_type", "id"), ("memo", "7")] ⟨"D", some "text", some "hello"⟩ =
      .error (.err .cannotUseMemo) :=
  c5_memo_exclusivity.1 [("memo_type", "id"), ("memo", "7")]
    ⟨"D", some "text", some "hello"⟩ "text" rfl (by decide) (by decide)

/-- Index `i` of the fuelled discovery loop is reached iff every
`path[k+j][asset_code]` key up to it is present in the form. -/
theorem discoverPathAux_length_iff (r : Req) :
    ∀ (fuel k i : Nat), i < fuel →
      (i < (discoverPathAux r k fuel).length ↔
        ∀ j, j ≤ i → (formGet r (pathCodeField (k + j))).isSome = true) := by
  intro fuel
  induction fuel with
  | zero => intro k i h; omega
  | succ fuel ih =>
    intro k i hi
    cases hf : formGet r (pathCodeField k) with
    | none =>
      simp only [discoverPathAux, hf, List.length_nil]
      constructor
      · intro h; omega
      · intro h
        have h0 := h 0 (Nat.zero_le i)
        rw [Nat.add_zero, hf] at h0
        simp at h0
    | some v =>
      simp only [discoverPathAux, hf, List.length_cons]
      cases i with
      | zero =>
        constructor
        · intro _ j hj
          have hj0 : j = 0 := Nat.le_zero.mp hj
          subst hj0
          rw [Nat.add_zero, hf]
          rfl
        · intro _
          omega
      | succ i =>
        have hiff := ih (k + 1) i (by omega)
        constructor
        · intro h j hj
          have hlt : i < (discoverPathAux r (k + 1) fuel).length := by omega
          cases j with
          | zero =>
            rw [Nat.add_zero, hf]
            rfl
          | succ j =>
            have hj' := (hiff.mp hlt) j (by omega)
            have heq : k + 1 + j = k + (j + 1) := by omega
            rw [heq] at hj'
            exact hj'
        · intro h
          have hall : ∀ j, j ≤ i → (formGet r (pathCodeField (k + 1 + j))).isSome = true := by
            intro j hj
            have heq : k + 1 + j = k + (j + 1) := by omega
            rw [heq]
            exact h (j + 1) (by omega)
          have := hiff.mpr hall
          omega

/-- C6: path-leg discovery is positional and stops at the first missing
index — leg `i` is reached iff `path[j][asset_code]` is present for every
`j ≤ i`; concretely, legs 0 and 1 present with leg 2 absent and leg 3
present yield a path of exactly length 2, and an absent `path[0]` yields an
empty path. -/
theorem c6_path_discovery_positional :
    (∀ (r : Req) (fuel i : Nat), i < fuel →
      (i < (discoverPathAux r 0 fuel).length ↔
        ∀ j, j ≤ i → (formGet r (pathCodeField j)).isSome = true)) ∧
    (createPathPaymentOperation baseEnv r6 dest6).1 =
      some (.pathPayment "D" .native "" .native ""
        [.issued "USD" "I0", .issued "EUR" "I1"]) ∧
    (createPathPaymentOperation baseEnv r6empty dest6).1 =
      some (.pathPayment "D" .native "" .native "" []) := by
  refine ⟨?_, rfl, rfl⟩
  intro r fuel i h
  have hiff := discoverPathAux_length_iff r fuel 0 i h
  simpa using hiff

/-- C6 witness: on the concrete gapped form, index 1 is reached (legs 0 and
1 are present). -/
theorem c6_path_discovery_positional_witness :
    (1 : Nat) < 7 ∧
    ((1 < (discoverPathAux r6 0 7).length) ↔
      ∀ j, j ≤ 1 → (formGet r6 (pathCodeField j)).isSome = true) :=
  ⟨by decide, c6_path_discovery_positional.1 r6 7 1 (by decide)⟩

/-- C7: memo kind dispatch — `id` requires a decimal uint64 value and keeps
it exactly; `hash` requires the value to hex-decode to exactly 32 bytes;
`text` accepts any string; any other non-empty kind is `InvalidMemo`. -/
theorem c7_memo_kind_dispatch :
    (∀ m : String, parseUint64 m = none →
      memoMutatorOf "id" m = .error .invalidMemo) ∧
    (∀ (m : String) (v : Nat), parseUint64 m = some v →
      memoMutatorOf "id" m = .ok (some (.id v))) ∧
    (∀ m : String, hexDecode m = none →
      memoMutatorOf "hash" m = .error .invalidMemo) ∧
    (∀ (m : String) (bs : List Nat), hexDecode m = some bs → bs.length ≠ 32 →
      memoMutatorOf "hash" m = .error .invalidMemo) ∧
    (∀ (m : String) (bs : List Nat), hexDecode m = some bs → bs.length = 32 →
      memoMutatorOf "hash" m = .ok (some (.hash bs))) ∧
    (∀ m : String, memoMutatorOf "text" m = .ok (some (.text m))) ∧
    (∀ (mt m : String), mt ≠ "" → mt ≠ "id" → mt ≠ "text" → mt ≠ "hash" →
      memoMutatorOf mt m = .error .invalidMemo) := by
  refine ⟨?_, ?_, ?_, ?_, ?_, ?_, ?_⟩
  · intro m h
    simp [memoMutatorOf, h]
  · intro m v h
    simp [memoMutatorOf, h]
  · intro m h
    simp [memoMutatorOf, h]
  · intro m bs h hl
    simp [memoMutatorOf, h, hl]
  · intro m bs h hl
    simp [memoMutatorOf, h, hl]
  · intro m
    simp [memoMutatorOf]
  · intro mt m h1 h2 h3 h4
    unfold memoMutatorOf
    rw [if_neg h1, if_neg h2, if_neg h3, if_neg h4]

/-- C7 witness: `memo_type="id"` with value `"7"` yields the id memo `7`;
a 64-character hex memo yields the 32-byte hash memo. -/
theorem c7_memo_kind_dispatch_witness :
    parseUint64 "7" = some 7 ∧ memoMutatorOf "id" "7" = .ok (some (.id 7)) :=
  ⟨rfl, c7_memo_kind_dispatch.2.1 "7" 7 rfl⟩

/-- C8 counterexample: a fetched sequence number equal to `2^64 - 1` parses,
and the assembled sequence mutator wraps to `0`, not to `N + 1`. -/
theorem c8_counterexample :
    parseUint64 "18446744073709551615" = some 18446744073709551615 ∧
    buildTx env8 r8 = .ok ⟨"S", 0, "net", .paymentCredit "D" "USD" "GI" "10", none⟩ ∧
    (0 : Nat) ≠ 18446744073709551615 + 1 :=
  ⟨rfl, rfl, by decide⟩

/-- C8 (amended): during assembly, a failed source-account load yields
`SourceNotExist`; a sequence string that does not parse as uint64 yields
`ServerError`; and a fetched sequence number `n` gives a sequence mutator of
exactly `(n + 1) mod 2^64` (equal to `n + 1` whenever `n < 2^64 - 1`). -/
theorem c8_assembly_sequence (env : Env) (r : Req) (d : StellarDestination)
    (sourceAddress x : String) (op : Op)
    (h1 : env.parseKeypair (fv r "source") = some sourceAddress)
    (h2 : env.resolve (fv r "destination") = some d)
    (h3 : env.parseKeypair d.accountId = some x)
    (h4 : opSwitch env r d = .ok (some op))
    (h5 : fv r "memo_type" = "") (h6 : fv r "memo" = "") (h7 : d.memoType = none) :
    (env.loadAccount sourceAddress = none →
      buildTx env r = .error (.err .sourceNotExist)) ∧
    (∀ s, env.loadAccount sourceAddress = some s → parseUint64 s = none →
      buildTx env r = .error (.err .serverError)) ∧
    (∀ s n, env.loadAccount sourceAddress = some s → parseUint64 s = some n →
      buildTx env r = .ok ⟨fv r "source", (n + 1) % 18446744073709551616,
        env.network, op, none⟩) := by
  have hm : effectiveMemo r d = .ok ("", "") := by
    simp [effectiveMemo, h5, h6, h7]
  have hmm : memoMutatorOf "" "" = .ok none := rfl
  refine ⟨?_, ?_, ?_⟩
  · intro hla
    simp [buildTx, h1, h2, h3, h4, hm, hmm, hla]
  · intro s hla hps
    simp [buildTx, h1, h2, h3, h4, hm, hmm, hla, hps]
  · intro s n hla hps
    simp [buildTx, h1, h2, h3, h4, hm, hmm, hla, hps]

/-- C8 witness: with the source account at sequence `"5"`, the assembled
transaction carries sequence `(5 + 1) mod 2^64 = 6`. -/
theorem c8_assembly_sequence_witness :
    buildTx baseEnv r8 = .ok ⟨"S", (5 + 1) % 18446744073709551616, "net",
      .paymentCredit "D" "USD" "GI" "10", none⟩ :=
  (c8_assembly_sequence baseEnv r8 ⟨"D", none, none⟩ "S" "D"
      (.paymentCredit "D" "USD" "GI" "10") rfl rfl rfl rfl rfl rfl rfl).2.2 "5" 5 rfl rfl

/-- C9: under the resolved-destination invariant (memo type present iff memo
value present) the memo-override step never dereferences an absent memo
value; dropping the invariant, the unguarded dereference crashes. -/
theorem c9_resolver_memo_invariant (r : Req) (d : StellarDestination)
    (h : d.memoType.isSome = d.memo.isSome) :
    effectiveMemo r d ≠ .error .crash ∧
    effectiveMemo ([] : Req) ⟨"D", some "id", none⟩ = .error .crash := by
  refine ⟨?_, rfl⟩
  cases hmt : d.memoType with
  | none =>
    simp only [effectiveMemo, hmt]
    split <;> simp
  | some mt =>
    rw [hmt] at h
    simp only [Option.isSome_some] at h
    cases hm : d.memo with
    | none => rw [hm] at h; simp at h
    | some m =>
      simp only [effectiveMemo, hmt, hm]
      split
      · simp
      · split <;> simp

/-- C9 witness: a destination satisfying the invariant never crashes the
override step. -/
theorem c9_resolver_memo_invariant_witness :
    effectiveMemo ([] : Req) ⟨"D", some "text", some "hello"⟩ ≠ .error .crash ∧
    effectiveMemo ([] : Req) ⟨"D", some "id", none⟩ = .error .crash :=
  c9_resolver_memo_invariant ([] : Req) ⟨"D", some "text", some "hello"⟩ rfl

/-- C10: an issued-asset simple payment (both asset fields set, issuer key
valid) never consults the destination-existence lookup and always composes
an issued-asset `Payment`; `CreateAccount` arises only from the native
branch with a failed lookup, and never from the path-payment composer. -/
theorem c10_issued_payment_no_lookup :
    (∀ (env : Env) (r : Req) (d : StellarDestination) (addr : String),
      fv r "asset_code" ≠ "" → fv r "asset_issuer" ≠ "" →
      env.parseKeypair (fv r "asset_issuer") = some addr →
      (createPaymentOperation env r d).1 =
        some (.paymentCredit d.accountId (fv r "asset_code") addr (fv r "amount")) ∧
      ∀ la, createPaymentOperation { env with loadAccount := la } r d =
        createPaymentOperation env r d) ∧
    (∀ (env : Env) (r : Req) (d : StellarDestination) (a amt : String),
      (createPaymentOperation env r d).1 = some (.createAccount a amt) →
      fv r "asset_code" = "" ∧ fv r "asset_issuer" = "" ∧
        env.loadAccount d.accountId = none) ∧
    (∀ (env : Env) (r : Req) (d : StellarDestination) (a amt : String),
      (createPathPaymentOperation env r d).1 ≠ some (.createAccount a amt)) := by
  refine ⟨?_, ?_, ?_⟩
  · intro env r d addr hc hi hk
    constructor
    · cases henv : env.opErr (Op.paymentCredit d.accountId (fv r "asset_code") addr
          (fv r "amount")) <;>
        simp [createPaymentOperation, hc, hi, hk, henv]
    · intro la
      cases henv : env.opErr (Op.paymentCredit d.accountId (fv r "asset_code") addr
          (fv r "amount")) <;>
        simp [createPaymentOperation, hc, hi, hk, henv]
  · intro env r d a amt h
    by_cases hc : fv r "asset_code" = ""
    · by_cases hi : fv r "asset_issuer" = ""
      · refine ⟨hc, hi, ?_⟩
        cases hla : env.loadAccount d.accountId with
        | none => rfl
        | some s =>
          exfalso
          cases henv : env.opErr (Op.paymentNative d.accountId (fv r "amount")) <;>
            simp [createPaymentOperation, hc, hi, hla, henv] at h
      · exfalso
        simp [createPaymentOperation, hc, hi] at h
    · by_cases hi : fv r "asset_issuer" = ""
      · exfalso
        simp [createPaymentOperation, hc, hi] at h
      · exfalso
        cases hk : env.parseKeypair (fv r "asset_issuer") with
        | none => simp [createPaymentOperation, hc, hi, hk] at h
        | some addr =>
          cases henv : env.opErr (Op.paymentCredit d.accountId (fv r "asset_code") addr
              (fv r "amount")) <;>
            simp [createPaymentOperation, hc, hi, hk, henv] at h
  · intro env r d a amt h
    unfold createPathPaymentOperation at h
    rcases h1 : assetFromParams (fv r "send_asset_code") (fv r "send_asset_issuer")
      with e | sa
    · rw [h1] at h
      simp at h
    · rw [h1] at h
      rcases h2 : assetFromParams (fv r "destination_asset_code")
          (fv r "destination_asset_issuer") with e2 | da
      · rw [h2] at h
        simp at h
      · rw [h2] at h
        cases henv : env.opErr (Op.pathPayment d.accountId sa (fv r "send_max") da
            (fv r "destination_amount") (discoverPath r)) <;>
          simp [henv] at h

/-- C10 witness: on a concrete issued-asset request the composer emits the
issued `Payment` regardless of the (failing) account lookup. -/
theorem c10_issued_payment_no_lookup_witness :
    (createPaymentOperation env1 [("asset_code", "USD"), ("asset_issuer", "GI"),
      ("amount", "10")] ⟨"D", none, none⟩).1 =
      some (.paymentCredit "D" "USD" "GI" "10") :=
  (c10_issued_payment_no_lookup.1 env1
    [("asset_code", "USD"), ("asset_issuer", "GI"), ("amount", "10")]
    ⟨"D", none, none⟩ "GI" (by decide) (by decide) rfl).1

end Gateway
